import Mathlib

/-!
Shallow embedding of the ride-lifecycle controller of `src/src/Screen1.tsx`
(driver client of a ride-hailing app).  React state variables become fields of
`DriverState`; each socket handler / user action becomes a pure function from
payload and state to a new state paired with a list of observable `Effect`s
(socket emits, HTTP persistence calls, user-facing alerts).  JavaScript
truthiness on strings and numbers (`x || y`) is modelled explicitly by the
`jsStrOr` / `strOr` / `jsNumOr2` helpers ("" and 0 are falsy).  The haversine
distance comes from an external npm library, so it is carried as an abstract
parameter `d : Location → Location → ℚ`; every property proved below holds for
an arbitrary distance function, hence in particular for haversine.
-/

namespace DriverApp

/-- Coordinate pair, `LocationType` in the source. -/
structure Location where
  latitude : ℚ
  longitude : ℚ
deriving DecidableEq, Repr

/-- Coordinate plus address, the `pickup` / `drop` shape of `RideType`. -/
structure Place where
  latitude : ℚ
  longitude : ℚ
  address : String
deriving DecidableEq, Repr

/-- The source `RideType`.  `otp` is `Option` because the TS field is
optional and `handleRideOTP` writes the raw event field into it. -/
structure RideType where
  rideId : String
  raidId : String
  otp : Option String
  pickup : Place
  drop : Place
  routeCoords : Option (List Location)
  fare : ℚ
  distance : String
deriving DecidableEq, Repr

/-- The source `UserDataType` (passenger data attached on accept). -/
structure UserDataType where
  name : String
  mobile : String
  location : Location
  userId : Option String
deriving DecidableEq, Repr

/-- The `rideStatus` union type of the source component. -/
inductive RideStatus where
  | idle
  | onTheWay
  | accepted
  | started
  | completed
deriving DecidableEq, Repr

/-- The `driverStatus` union type of the source component. -/
inductive DriverStatusT where
  | offline
  | online
  | onRide
deriving DecidableEq, Repr

/-- Observable outputs of one handler invocation: socket emits, the HTTP
location-persistence POST, the reconnect request, and user-facing alerts. -/
inductive Effect where
  | persistLocation (driverId driverName : String) (latitude longitude : ℚ)
      (status : String) (rideId : Option String)
  | emitDriverLocationUpdate (driverId : String) (latitude longitude : ℚ)
      (status : String) (rideId : Option String)
  | emitAcceptRide (rideId driverId driverName : String)
  | emitRejectRide (rideId driverId : String)
  | emitDriverAcceptedRide (rideId driverId : String) (userId : Option String)
      (driverLocation : Option Location)
  | emitGetUserDataForDriver (rideId : String)
  | emitDriverStartedRide (rideId driverId : String) (userId : Option String)
      (driverLocation : Option Location)
  | emitDriverCompletedRide (rideId driverId : String) (userId : Option String)
      (distance : ℚ)
  | emitCompleteRide (rideId driverId : String) (distance : ℚ)
  | emitDriverRideCancelled (rideId driverId : String) (userId : Option String)
  | reconnect
  | alert (title message : String)
deriving DecidableEq, Repr

/-- The React state of `DriverScreen` that the ride lifecycle touches.
`navigationActive` models whether `navigationInterval.current` is set. -/
structure DriverState where
  location : Option Location
  ride : Option RideType
  userData : Option UserDataType
  userLocation : Option Location
  travelledKm : ℚ
  lastCoord : Option Location
  otpModalVisible : Bool
  enteredOtp : String
  rideStatus : RideStatus
  driverStatus : DriverStatusT
  isLoading : Bool
  driverId : String
  driverName : String
  fullRouteCoords : List Location
  visibleRouteCoords : List Location
  nearestPointIndex : Nat
  locationUpdateCount : Nat
  navigationActive : Bool
deriving DecidableEq, Repr

/-- JavaScript `a || dflt` on an optional string ("" is falsy). -/
def jsStrOr (a : Option String) (dflt : String) : String :=
  match a with
  | some x => if x = "" then dflt else x
  | none => dflt

/-- JavaScript `a || b` where both sides are optional strings. -/
def strOr (a b : Option String) : Option String :=
  match a with
  | some x => if x = "" then b else some x
  | none => b

/-- JavaScript `a || b || 0` on optional numbers (0 is falsy). -/
def jsNumOr2 (a b : Option ℚ) : ℚ :=
  match a with
  | some x => if x = 0 then b.getD 0 else x
  | none => b.getD 0

/-- Loop body of `findNearestPointOnRoute`: scan the remaining points with a
running best `(index, distance)` pair, replacing it on a strictly smaller
distance (so the first index achieving the minimum is kept). -/
def scanNearest (d : Location → Location → ℚ) (c : Location) :
    List Location → Nat → Nat × ℚ → Nat × ℚ
  | [], _, acc => acc
  | p :: rest, i, acc =>
      if d c p < acc.2 then scanNearest d c rest (i + 1) (i, d c p)
      else scanNearest d c rest (i + 1) acc

/-- Source `findNearestPointOnRoute`.  The JS loop starts from
`minDistance = Infinity`, so its first iteration always installs point 0;
initialising the accumulator with the head is the same computation. -/
def findNearestPointOnRoute (d : Location → Location → ℚ) (c : Location)
    (routeCoords : List Location) : Option (Nat × ℚ) :=
  match routeCoords with
  | [] => none
  | p :: rest => some (scanNearest d c rest 1 (0, d c p))

/-- Source `updateVisibleRoute`: while a ride is `started` and a full route
and a current location exist, truncate the full route at the nearest index
and prepend the live driver coordinate. -/
def updateVisibleRoute (d : Location → Location → ℚ) (s : DriverState) :
    DriverState :=
  match s.location with
  | none => s
  | some loc =>
    if s.fullRouteCoords.length = 0 ∨ s.rideStatus ≠ RideStatus.started then s
    else
      match findNearestPointOnRoute d loc s.fullRouteCoords with
      | none => s
      | some (i, _) =>
        let remaining := s.fullRouteCoords.drop i
        if 0 < remaining.length then
          { s with visibleRouteCoords := loc :: remaining, nearestPointIndex := i }
        else s

/-- Source `saveLocationToDatabase`: post-increment the sample counter, do
nothing unless it is divisible by 5, otherwise POST the location payload and,
when the POST succeeded (`ok`) and the socket is connected (`conn`), also emit
`driverLocationUpdate`. -/
def saveLocationToDatabase (conn ok : Bool) (loc : Location) (s : DriverState) :
    DriverState × List Effect :=
  let cnt := s.locationUpdateCount + 1
  let s1 := { s with locationUpdateCount := cnt }
  if cnt % 5 ≠ 0 then (s1, [])
  else
    let status := if s.driverStatus = DriverStatusT.onRide then "onRide" else "Live"
    let rid := if s.driverStatus = DriverStatusT.onRide
      then s.ride.map (fun r => r.rideId) else none
    let post := Effect.persistLocation s.driverId
      (jsStrOr (some s.driverName) "Unknown Driver")
      loc.latitude loc.longitude status rid
    if ok ∧ conn then
      (s1, [post, Effect.emitDriverLocationUpdate s.driverId loc.latitude
        loc.longitude status rid])
    else (s1, [post])

/-- The `Geolocation.watchPosition` success callback: unconditionally update
the current location, accumulate haversine distance (metres → km) from the
previous sample when one exists, remember the sample, then run
`saveLocationToDatabase`. -/
def locationStep (d : Location → Location → ℚ) (conn ok : Bool)
    (pos : Location) (s : DriverState) : DriverState × List Effect :=
  let s1 := { s with location := some pos }
  let s2 :=
    match s1.lastCoord with
    | some lc =>
      { s1 with travelledKm := s1.travelledKm + d lc pos / 1000,
                lastCoord := some pos }
    | none => { s1 with lastCoord := some pos }
  saveLocationToDatabase conn ok pos s2

/-- Ingest a whole list of position samples through `locationStep`. -/
def ingestAll (d : Location → Location → ℚ) (conn ok : Bool)
    (samples : List Location) (s : DriverState) : DriverState :=
  match samples with
  | [] => s
  | p :: rest => ingestAll d conn ok rest (locationStep d conn ok p s).1

/-- Sum of consecutive pairwise distances along a list of samples. -/
def pathLength (d : Location → Location → ℚ) : List Location → ℚ
  | [] => 0
  | [_] => 0
  | a :: b :: rest => d a b + pathLength d (b :: rest)

/-- Source `rejectRide`.  Note it does not touch `travelledKm` or
`nearestPointIndex`. -/
def rejectRide (rid? : Option String) (s : DriverState) :
    DriverState × List Effect :=
  match strOr rid? (s.ride.map (fun r => r.rideId)) with
  | none => (s, [])
  | some cr =>
    if cr = "" then (s, [])
    else
      ({ s with ride := none, rideStatus := RideStatus.idle,
                driverStatus := DriverStatusT.online, userData := none,
                userLocation := none, lastCoord := none,
                fullRouteCoords := [], visibleRouteCoords := [] },
       [Effect.emitRejectRide cr s.driverId,
        Effect.alert "Ride Rejected ❌" "You rejected the ride"])

/-- Acknowledgement payload of the `acceptRide` emit. -/
structure AckResponse where
  userName : Option String
  userMobile : Option String
  userId : Option String
  pickupLat : ℚ
  pickupLng : ℚ
deriving DecidableEq, Repr

/-- External inputs consumed during one `acceptRide` call: socket
connectivity, the acknowledgement (none models a missing or unsuccessful
response), and the driver→pickup route fetched from the route service. -/
structure AcceptCtx where
  connected : Bool
  ack : Option AckResponse
  routeRes : Option (List Location)
deriving DecidableEq, Repr

/-- Source `acceptRide`, with its asynchronous acknowledgement callback
inlined (the model is single-threaded, as the spec's concurrency section
states). -/
def acceptRide (ctx : AcceptCtx) (rid? : Option String) (s : DriverState) :
    DriverState × List Effect :=
  match strOr rid? (s.ride.map (fun r => r.rideId)) with
  | none => (s, [Effect.alert "Error" "No ride ID available. Please try again."])
  | some cr =>
    if cr = "" then
      (s, [Effect.alert "Error" "No ride ID available. Please try again."])
    else if s.driverId = "" then
      (s, [Effect.alert "Error" "Driver not properly registered."])
    else if ¬ctx.connected then
      (s, [Effect.alert "Connection Error" "Reconnecting to server...",
           Effect.reconnect])
    else
      let s1 := { s with isLoading := false, rideStatus := RideStatus.accepted,
                         driverStatus := DriverStatusT.onRide }
      let base := [Effect.emitAcceptRide cr s.driverId s.driverName]
      match ctx.ack with
      | none => (s1, base)
      | some resp =>
        let uLoc : Location := { latitude := resp.pickupLat, longitude := resp.pickupLng }
        let ud : UserDataType :=
          { name := jsStrOr resp.userName "User",
            mobile := jsStrOr resp.userMobile "N/A",
            location := uLoc, userId := resp.userId }
        let s2 := { s1 with userData := some ud, userLocation := some uLoc }
        let s3 :=
          match s.location, ctx.routeRes with
          | some _, some rc =>
            { s2 with ride := s2.ride.map (fun r => { r with routeCoords := some rc }) }
          | _, _ => s2
        (s3, base ++ [Effect.emitDriverAcceptedRide cr s.driverId resp.userId s.location,
                      Effect.emitGetUserDataForDriver cr])

/-- Source `confirmOTP`.  `routeRes` is the pickup→drop route returned by the
route service inside `startNavigation` (none models a failed fetch). -/
def confirmOTP (routeRes : Option (List Location)) (s : DriverState) :
    DriverState × List Effect :=
  match s.ride with
  | none => (s, [])
  | some r =>
    match r.otp with
    | none => (s, [Effect.alert "Error" "OTP not yet received. Please wait..."])
    | some o =>
      if o = "" then
        (s, [Effect.alert "Error" "OTP not yet received. Please wait..."])
      else if s.enteredOtp = o then
        let s1 := { s with rideStatus := RideStatus.started,
                           otpModalVisible := false, enteredOtp := "" }
        let s2 :=
          match routeRes with
          | some rc =>
            if 0 < rc.length then
              { s1 with fullRouteCoords := rc, visibleRouteCoords := rc,
                        navigationActive := true }
            else s1
          | none => s1
        (s2, [Effect.emitDriverStartedRide r.rideId s.driverId
                (s.userData.bind (fun u => u.userId)) s.location,
              Effect.alert "OTP Verified ✅"
                "Navigation from pickup to destination started. Follow the red route."])
      else (s, [Effect.alert "Invalid OTP" "Please check the OTP and try again."])

/-- Source `completeRide`.  The final status is `completed` (never reset to
`idle` here); everything else ride-scoped is cleared. -/
def completeRide (s : DriverState) : DriverState × List Effect :=
  match s.ride with
  | none => (s, [])
  | some r =>
    ({ s with navigationActive := false, rideStatus := RideStatus.completed,
              driverStatus := DriverStatusT.online, ride := none,
              travelledKm := 0, userData := none, userLocation := none,
              lastCoord := none, fullRouteCoords := [], visibleRouteCoords := [],
              nearestPointIndex := 0 },
     [Effect.emitDriverCompletedRide r.rideId s.driverId
        (s.userData.bind (fun u => u.userId)) s.travelledKm,
      Effect.emitCompleteRide r.rideId s.driverId s.travelledKm,
      Effect.alert "Ride Completed"
        ("You travelled " ++ toString s.travelledKm ++ " km.")])

/-- The nested coordinate object of an inbound ride-request payload, with the
two accepted spellings of each axis. -/
structure PlacePayload where
  lat : Option ℚ
  latitude : Option ℚ
  lng : Option ℚ
  longitude : Option ℚ
  address : Option String
deriving DecidableEq, Repr

/-- An inbound `newRideRequest` payload; every field may be absent. -/
structure RidePayload where
  rideId : Option String
  raidId : Option String
  otp : Option String
  pickup : Option PlacePayload
  drop : Option PlacePayload
  fare : Option ℚ
  distance : Option String
deriving DecidableEq, Repr

/-- Defensive parsing of one endpoint of a ride request
(`data.pickup?.lat || data.pickup?.latitude || 0`, address defaulted). -/
def mkPlace (p? : Option PlacePayload) : Place :=
  match p? with
  | none => { latitude := 0, longitude := 0, address := "Unknown location" }
  | some p =>
    { latitude := jsNumOr2 p.lat p.latitude,
      longitude := jsNumOr2 p.lng p.longitude,
      address := jsStrOr p.address "Unknown location" }

/-- Source `handleRideRequest`: a payload with a missing (or JS-falsy) rideId
is dropped before any state change; otherwise every other missing field is
defaulted, the ride is stored, status becomes `onTheWay` and the offer is
presented to the driver. -/
def handleRideRequest (pl : RidePayload) (s : DriverState) :
    DriverState × List Effect :=
  match pl.rideId with
  | none => (s, [])
  | some rid =>
    if rid = "" then (s, [])
    else
      let pk := mkPlace pl.pickup
      let dp := mkPlace pl.drop
      let rideData : RideType :=
        { rideId := rid, raidId := jsStrOr pl.raidId "N/A",
          otp := some (jsStrOr pl.otp "0000"),
          pickup := pk, drop := dp, routeCoords := none,
          fare := pl.fare.getD 0, distance := jsStrOr pl.distance "0 km" }
      ({ s with ride := some rideData, rideStatus := RideStatus.onTheWay },
       [Effect.alert "🚖 New Ride Request!"
          ("📍 Pickup: " ++ pk.address ++ "\n🎯 Drop: " ++ dp.address ++
           "\n💰 Fare: ₹" ++ toString rideData.fare ++
           "\n📏 Distance: " ++ rideData.distance)])

/-- Source `handleRideCancelled`: only acts when a ride is held and the event
rideId matches it; then stops navigation, emits one `driverRideCancelled`,
clears all ride-scoped state and returns to `idle`. -/
def handleRideCancelled (eid : Option String) (s : DriverState) :
    DriverState × List Effect :=
  match s.ride with
  | none => (s, [])
  | some r =>
    if eid = some r.rideId then
      ({ s with navigationActive := false, ride := none, userData := none,
                userLocation := none, travelledKm := 0, lastCoord := none,
                rideStatus := RideStatus.idle, driverStatus := DriverStatusT.online,
                fullRouteCoords := [], visibleRouteCoords := [],
                nearestPointIndex := 0 },
       [Effect.emitDriverRideCancelled r.rideId s.driverId
          (s.userData.bind (fun u => u.userId)),
        Effect.alert "Ride Cancelled" "The passenger cancelled the ride."])
    else (s, [])

/-- Source `handleRideAlreadyAccepted`: only acts on a matching rideId; note
it does not clear the route arrays or the nearest index. -/
def handleRideAlreadyAccepted (eid msg? : Option String) (s : DriverState) :
    DriverState × List Effect :=
  match s.ride with
  | none => (s, [])
  | some r =>
    if eid = some r.rideId then
      ({ s with ride := none, userData := none, userLocation := none,
                travelledKm := 0, lastCoord := none,
                rideStatus := RideStatus.idle, driverStatus := DriverStatusT.online },
       [Effect.alert "Ride Taken"
          (jsStrOr msg? "This ride has already been accepted by another driver.")])
    else (s, [])

/-- Source `handleRideOTP`: on a matching rideId, overwrite the held ride
otp with the raw event field. -/
def handleRideOTP (eid otp? : Option String) (s : DriverState) :
    DriverState × List Effect :=
  match s.ride with
  | none => (s, [])
  | some r =>
    if eid = some r.rideId then
      ({ s with ride := some { r with otp := otp? } }, [])
    else (s, [])

/-- Recogniser for the HTTP persistence effect. -/
def isPersist : Effect → Bool := fun e =>
  match e with
  | Effect.persistLocation _ _ _ _ _ _ => true
  | _ => false

/-- Recogniser for the `driverRideCancelled` emission. -/
def isDriverRideCancelled : Effect → Bool := fun e =>
  match e with
  | Effect.emitDriverRideCancelled _ _ _ => true
  | _ => false

/-- A ride-request payload carrying only a rideId, every other field absent. -/
def payloadOnlyId (rid : String) : RidePayload :=
  { rideId := some rid, raidId := none, otp := none, pickup := none,
    drop := none, fare := none, distance := none }

/-- A ride-request payload with every field absent, the rideId included. -/
def emptyPayload : RidePayload :=
  { rideId := none, raidId := none, otp := none, pickup := none,
    drop := none, fare := none, distance := none }

/-- The ride `handleRideRequest` builds from `payloadOnlyId rid`: every
missing field defensively defaulted. -/
def defaultRideOf (rid : String) : RideType :=
  { rideId := rid, raidId := "N/A", otp := some "0000",
    pickup := { latitude := 0, longitude := 0, address := "Unknown location" },
    drop := { latitude := 0, longitude := 0, address := "Unknown location" },
    routeCoords := none, fare := 0, distance := "0 km" }

/-! Concrete example data used by witness and counterexample theorems. -/

/-- Example distance function (squared Euclidean on the plane); the scan
properties hold for any distance function, haversine included. -/
def dEx : Location → Location → ℚ :=
  fun a b => (a.latitude - b.latitude) ^ 2 + (a.longitude - b.longitude) ^ 2

def locA : Location := ⟨0, 0⟩

def locB : Location := ⟨1, 0⟩

def locC : Location := ⟨2, 0⟩

def routeEx : List Location := [locA, locB, locC]

def placeEx : Place := { latitude := 0, longitude := 0, address := "A" }

/-- A ride as produced by `handleRideRequest` with no otp in the payload:
the otp field holds the default "0000". -/
def rideEx : RideType :=
  { rideId := "R1", raidId := "N/A", otp := some "0000", pickup := placeEx,
    drop := placeEx, routeCoords := none, fare := 150, distance := "5 km" }

/-- The same ride after a dedicated OTP event delivered a real code. -/
def rideEx2 : RideType := { rideEx with otp := some "4321" }

/-- An accepted ride with two kilometres already on the accumulator and a
nonempty route, the entered code equal to the default otp. -/
def stateAccepted : DriverState :=
  { location := some locA, ride := some rideEx, userData := none,
    userLocation := none, travelledKm := 2, lastCoord := none,
    otpModalVisible := true, enteredOtp := "0000",
    rideStatus := RideStatus.accepted, driverStatus := DriverStatusT.onRide,
    isLoading := false, driverId := "D1", driverName := "Dan",
    fullRouteCoords := [locA, locB], visibleRouteCoords := [locA, locB],
    nearestPointIndex := 0, locationUpdateCount := 0, navigationActive := false }

/-- Variant whose ride has no otp at all (as after a `rideOTP` event whose
payload lacked the field). -/
def stateNoOtp : DriverState :=
  { stateAccepted with ride := some { rideEx with otp := none } }

/-- Variant holding a real (non-default) otp and a wrong entered code. -/
def stateRealOtp : DriverState :=
  { stateAccepted with ride := some rideEx2, enteredOtp := "9999" }

/-- Variant in the `started` status. -/
def stateStarted : DriverState :=
  { stateAccepted with rideStatus := RideStatus.started }

/-- Variant with a fresh distance accumulator and no previous sample. -/
def stateZero : DriverState := { stateAccepted with travelledKm := 0 }

/-- Variant with a previous location sample recorded. -/
def stateWithLast : DriverState := { stateAccepted with lastCoord := some locA }

/-! Helper lemmas about the nearest-point scan. -/

lemma scanNearest_cons (d : Location → Location → ℚ) (c p : Location)
    (rest : List Location) (i : Nat) (acc : Nat × ℚ) :
    scanNearest d c (p :: rest) i acc =
      if d c p < acc.2 then scanNearest d c rest (i + 1) (i, d c p)
      else scanNearest d c rest (i + 1) acc := rfl

lemma scanNearest_snd_le (d : Location → Location → ℚ) (c : Location)
    (rest : List Location) : ∀ (i : Nat) (acc : Nat × ℚ),
      (scanNearest d c rest i acc).2 ≤ acc.2 := by
  induction rest with
  | nil => intro i acc; exact le_refl _
  | cons p rest ih =>
    intro i acc
    rw [scanNearest_cons]
    by_cases h : d c p < acc.2
    · rw [if_pos h]
      exact le_trans (ih (i + 1) (i, d c p)) (le_of_lt h)
    · rw [if_neg h]
      exact ih (i + 1) acc

lemma scanNearest_le_elem (d : Location → Location → ℚ) (c : Location)
    (rest : List Location) : ∀ (i : Nat) (acc : Nat × ℚ) (j : Nat)
      (hj : j < rest.length), (scanNearest d c rest i acc).2 ≤ d c rest[j] := by
  induction rest with
  | nil => intro i acc j hj; exact absurd hj (by simp)
  | cons p rest ih =>
    intro i acc j hj
    rw [scanNearest_cons]
    by_cases h : d c p < acc.2
    · rw [if_pos h]
      cases j with
      | zero => simpa using scanNearest_snd_le d c rest (i + 1) (i, d c p)
      | succ j => simpa using ih (i + 1) (i, d c p) j (by simpa using hj)
    · rw [if_neg h]
      cases j with
      | zero =>
        have h2 := scanNearest_snd_le d c rest (i + 1) acc
        simpa using le_trans h2 (not_lt.mp h)
      | succ j => simpa using ih (i + 1) acc j (by simpa using hj)

lemma scanNearest_attained (d : Location → Location → ℚ) (c : Location)
    (rest : List Location) : ∀ (i : Nat) (acc : Nat × ℚ),
      scanNearest d c rest i acc = acc ∨
        ∃ k, ∃ hk : k < rest.length,
          (scanNearest d c rest i acc).1 = i + k ∧
          (scanNearest d c rest i acc).2 = d c rest[k] := by
  induction rest with
  | nil => intro i acc; exact Or.inl rfl
  | cons p rest ih =>
    intro i acc
    rw [scanNearest_cons]
    by_cases h : d c p < acc.2
    · rw [if_pos h]
      right
      rcases ih (i + 1) (i, d c p) with heq | ⟨k, hk, h1, h2⟩
      · exact ⟨0, by simp, by rw [heq]; simp, by rw [heq]; simp⟩
      · refine ⟨k + 1, by simp; omega, by rw [h1]; omega, by rw [h2]; simp⟩
    · rw [if_neg h]
      rcases ih (i + 1) acc with heq | ⟨k, hk, h1, h2⟩
      · exact Or.inl heq
      · exact Or.inr ⟨k + 1, by simp; omega, by rw [h1]; omega, by rw [h2]; simp⟩

lemma scanNearest_stay (d : Location → Location → ℚ) (c : Location)
    (rest : List Location) : ∀ (i : Nat) (acc : Nat × ℚ), acc.1 < i →
      (scanNearest d c rest i acc).1 < i → scanNearest d c rest i acc = acc := by
  induction rest with
  | nil => intro i acc _ _; rfl
  | cons p rest ih =>
    intro i acc hacc hres
    rw [scanNearest_cons] at hres ⊢
    by_cases h : d c p < acc.2
    · rw [if_pos h] at hres ⊢
      exfalso
      rcases scanNearest_attained d c rest (i + 1) (i, d c p) with heq | ⟨k, hk, h1, h2⟩
      · rw [heq] at hres; simp at hres
      · rw [h1] at hres; omega
    · rw [if_neg h] at hres ⊢
      exact ih (i + 1) acc (by omega) (by omega)

lemma scanNearest_moved (d : Location → Location → ℚ) (c : Location)
    (rest : List Location) : ∀ (i : Nat) (acc : Nat × ℚ), acc.1 < i →
      i ≤ (scanNearest d c rest i acc).1 → (scanNearest d c rest i acc).2 < acc.2 := by
  induction rest with
  | nil =>
    intro i acc hacc hres
    simp only [scanNearest] at hres
    exfalso; omega
  | cons p rest ih =>
    intro i acc hacc hres
    rw [scanNearest_cons] at hres ⊢
    by_cases h : d c p < acc.2
    · rw [if_pos h] at hres ⊢
      by_cases h2 : (scanNearest d c rest (i + 1) (i, d c p)).1 < i + 1
      · have hst := scanNearest_stay d c rest (i + 1) (i, d c p) (Nat.lt_succ_self i) h2
        rw [hst]
        exact h
      · have hlt := ih (i + 1) (i, d c p) (Nat.lt_succ_self i) (by omega)
        exact lt_trans hlt h
    · rw [if_neg h] at hres ⊢
      by_cases h2 : (scanNearest d c rest (i + 1) acc).1 < i + 1
      · have hst := scanNearest_stay d c rest (i + 1) acc (by omega) h2
        rw [hst] at hres
        exfalso; omega
      · exact ih (i + 1) acc (by omega) (by omega)

lemma scanNearest_first (d : Location → Location → ℚ) (c : Location)
    (rest : List Location) : ∀ (i : Nat) (acc : Nat × ℚ), acc.1 < i →
      ∀ (k : Nat) (hk : k < rest.length), i + k < (scanNearest d c rest i acc).1 →
        (scanNearest d c rest i acc).2 < d c rest[k] := by
  induction rest with
  | nil => intro i acc _ k hk; exact absurd hk (by simp)
  | cons p rest ih =>
    intro i acc hacc k hk hlt
    rw [scanNearest_cons] at hlt ⊢
    by_cases h : d c p < acc.2
    · rw [if_pos h] at hlt ⊢
      cases k with
      | zero =>
        have hm := scanNearest_moved d c rest (i + 1) (i, d c p)
          (Nat.lt_succ_self i) (by omega)
        simpa using hm
      | succ k =>
        have := ih (i + 1) (i, d c p) (Nat.lt_succ_self i) k
          (by simp at hk; omega) (by omega)
        simpa using this
    · rw [if_neg h] at hlt ⊢
      cases k with
      | zero =>
        have h1 := scanNearest_moved d c rest (i + 1) acc (by omega) (by omega)
        have h2 : acc.2 ≤ d c p := not_lt.mp h
        simpa using lt_of_lt_of_le h1 h2
      | succ k =>
        have := ih (i + 1) acc (by omega) k (by simp at hk; omega) (by omega)
        simpa using this

/-- Full characterisation of `findNearestPointOnRoute` on a nonempty route:
the result exists, its index is in range and attained, its distance is the
minimum of all point distances, every earlier index has a strictly larger
distance, and a one-point route yields index 0. -/
lemma findNearest_char (d : Location → Location → ℚ) (c : Location)
    (route : List Location) (hne : route ≠ []) :
    ∃ i dm, findNearestPointOnRoute d c route = some (i, dm) ∧
      i < route.length ∧
      (∃ j, ∃ hj : j < route.length, i = j ∧ dm = d c route[j]) ∧
      (∀ j (hj : j < route.length), dm ≤ d c route[j]) ∧
      (∀ j, j < i → ∀ hj : j < route.length, dm < d c route[j]) ∧
      (route.length = 1 → i = 0) := by
  rcases route with _ | ⟨p, rest⟩
  · exact absurd rfl hne
  · refine ⟨(scanNearest d c rest 1 (0, d c p)).1,
      (scanNearest d c rest 1 (0, d c p)).2, rfl, ?_, ?_, ?_, ?_, ?_⟩
    · rcases scanNearest_attained d c rest 1 (0, d c p) with heq | ⟨k, hk, h1, _⟩
      · rw [heq]; simp
      · rw [h1]; simp only [List.length_cons]; omega
    · rcases scanNearest_attained d c rest 1 (0, d c p) with heq | ⟨k, hk, h1, h2⟩
      · exact ⟨0, by simp, by rw [heq], by rw [heq]; simp⟩
      · exact ⟨k + 1, by simp; omega, by rw [h1]; omega, by rw [h2]; simp⟩
    · intro j hj
      cases j with
      | zero => simpa using scanNearest_snd_le d c rest 1 (0, d c p)
      | succ j => simpa using scanNearest_le_elem d c rest 1 (0, d c p) j (by simp at hj; omega)
    · intro j hji hj
      cases j with
      | zero =>
        have hm := scanNearest_moved d c rest 1 (0, d c p) Nat.one_pos (by omega)
        simpa using hm
      | succ j =>
        have := scanNearest_first d c rest 1 (0, d c p) Nat.one_pos j
          (by simp at hj; omega) (by omega)
        simpa using this
    · intro h1
      have hr : rest = [] := by
        have : rest.length = 0 := by simpa using h1
        simpa [List.length_eq_zero] using this
      subst hr
      rfl

/-- C5: for every current coordinate and nonempty route, nearest-point
selection returns an in-range index whose distance is the minimum of all
route-point distances, takes the first index on ties, and returns index 0
for a single-point route.  Proved for an arbitrary distance function, hence
in particular for haversine. -/
theorem findNearestPointOnRoute_spec (d : Location → Location → ℚ) (c : Location)
    (route : List Location) (hne : route ≠ []) :
    ∃ i dm, findNearestPointOnRoute d c route = some (i, dm) ∧
      i < route.length ∧
      (∃ j, ∃ hj : j < route.length, i = j ∧ dm = d c route[j]) ∧
      (∀ j (hj : j < route.length), dm ≤ d c route[j]) ∧
      (∀ j, j < i → ∀ hj : j < route.length, dm < d c route[j]) ∧
      (route.length = 1 → i = 0) :=
  findNearest_char d c route hne

/-- Witness for C5 at a concrete distance function, coordinate and route. -/
theorem findNearestPointOnRoute_spec_witness :
    routeEx ≠ [] ∧
      ∃ i dm, findNearestPointOnRoute dEx locB routeEx = some (i, dm) ∧
        i < routeEx.length ∧
        (∃ j, ∃ hj : j < routeEx.length, i = j ∧ dm = dEx locB routeEx[j]) ∧
        (∀ j (hj : j < routeEx.length), dm ≤ dEx locB routeEx[j]) ∧
        (∀ j, j < i → ∀ hj : j < routeEx.length, dm < dEx locB routeEx[j]) ∧
        (routeEx.length = 1 → i = 0) :=
  ⟨by decide, findNearestPointOnRoute_spec dEx locB routeEx (by decide)⟩

/-- C6: the visible-route recomputation is a no-op unless a location exists,
the full route is nonempty and the status is started; in the active case it
sets the visible route to the live coordinate prepended to the tail of the
full route from the nearest index, records that index, and changes nothing
else. -/
theorem updateVisibleRoute_spec (d : Location → Location → ℚ) (s : DriverState) :
    ((s.rideStatus ≠ RideStatus.started ∨ s.fullRouteCoords = [] ∨ s.location = none) →
      updateVisibleRoute d s = s) ∧
    (∀ loc, s.location = some loc → s.rideStatus = RideStatus.started →
      s.fullRouteCoords ≠ [] →
      ∃ i dm, findNearestPointOnRoute d loc s.fullRouteCoords = some (i, dm) ∧
        i < s.fullRouteCoords.length ∧
        (updateVisibleRoute d s).visibleRouteCoords = loc :: s.fullRouteCoords.drop i ∧
        (updateVisibleRoute d s).nearestPointIndex = i ∧
        (updateVisibleRoute d s).fullRouteCoords = s.fullRouteCoords ∧
        (updateVisibleRoute d s).rideStatus = s.rideStatus ∧
        (updateVisibleRoute d s).ride = s.ride ∧
        (updateVisibleRoute d s).travelledKm = s.travelledKm ∧
        (updateVisibleRoute d s).location = s.location ∧
        (updateVisibleRoute d s).lastCoord = s.lastCoord ∧
        (updateVisibleRoute d s).userData = s.userData ∧
        (updateVisibleRoute d s).userLocation = s.userLocation) := by
  constructor
  · intro h
    rcases hloc : s.location with _ | loc
    · simp [updateVisibleRoute, hloc]
    · rcases h with hs | hne | hl
      · simp [updateVisibleRoute, hloc, hs]
      · simp [updateVisibleRoute, hloc, hne]
      · rw [hloc] at hl; cases hl
  · intro loc hl hs hne
    obtain ⟨i, dm, hfind, hilen, _, _, _, _⟩ := findNearest_char d loc s.fullRouteCoords hne
    have hlen0 : ¬(s.fullRouteCoords.length = 0 ∨ s.rideStatus ≠ RideStatus.started) := by
      push_neg
      exact ⟨by simpa [List.length_eq_zero] using hne, hs⟩
    have hdrop : 0 < (s.fullRouteCoords.drop i).length := by
      rw [List.length_drop]
      omega
    refine ⟨i, dm, hfind, hilen, ?_⟩
    simp only [updateVisibleRoute, hl, if_neg hlen0, hfind, if_pos hdrop]
    simp

/-- Witness for C6 with a started ride, a concrete location and route, and a
state in a non-started status for the no-op side. -/
theorem updateVisibleRoute_spec_witness :
    (updateVisibleRoute dEx stateAccepted = stateAccepted) ∧
      stateStarted.location = some locA ∧
      ∃ i dm, findNearestPointOnRoute dEx locA stateStarted.fullRouteCoords = some (i, dm) ∧
        i < stateStarted.fullRouteCoords.length ∧
        (updateVisibleRoute dEx stateStarted).visibleRouteCoords =
          locA :: stateStarted.fullRouteCoords.drop i := by
  have h1 := (updateVisibleRoute_spec dEx stateAccepted).1
    (Or.inl (by decide))
  have h2 := (updateVisibleRoute_spec dEx stateStarted).2 locA rfl rfl
    (by decide)
  obtain ⟨i, dm, hfind, hilen, hvis, _⟩ := h2
  exact ⟨h1, rfl, i, dm, hfind, hilen, hvis⟩

/-! Helper lemmas about location ingestion. -/

lemma saveLocationToDatabase_fst (conn ok : Bool) (loc : Location) (s : DriverState) :
    (saveLocationToDatabase conn ok loc s).1 =
      { s with locationUpdateCount := s.locationUpdateCount + 1 } := by
  by_cases h : (s.locationUpdateCount + 1) % 5 = 0
  · by_cases h2 : ok ∧ conn <;> simp [saveLocationToDatabase, h, h2]
  · simp [saveLocationToDatabase, h]

lemma saveLocationToDatabase_countP (conn ok : Bool) (loc : Location) (s : DriverState) :
    ((saveLocationToDatabase conn ok loc s).2.countP isPersist) =
      if (s.locationUpdateCount + 1) % 5 = 0 then 1 else 0 := by
  by_cases h : (s.locationUpdateCount + 1) % 5 = 0
  · by_cases h2 : ok ∧ conn <;>
      simp [saveLocationToDatabase, h, h2, isPersist, List.countP_cons]
  · simp [saveLocationToDatabase, h]

lemma locationStep_location (d : Location → Location → ℚ) (conn ok : Bool)
    (pos : Location) (s : DriverState) :
    (locationStep d conn ok pos s).1.location = some pos := by
  rcases h : s.lastCoord with _ | lc <;>
    simp [locationStep, saveLocationToDatabase_fst, h]

lemma locationStep_lastCoord (d : Location → Location → ℚ) (conn ok : Bool)
    (pos : Location) (s : DriverState) :
    (locationStep d conn ok pos s).1.lastCoord = some pos := by
  rcases h : s.lastCoord with _ | lc <;>
    simp [locationStep, saveLocationToDatabase_fst, h]

lemma locationStep_count (d : Location → Location → ℚ) (conn ok : Bool)
    (pos : Location) (s : DriverState) :
    (locationStep d conn ok pos s).1.locationUpdateCount = s.locationUpdateCount + 1 := by
  rcases h : s.lastCoord with _ | lc <;>
    simp [locationStep, saveLocationToDatabase_fst, h]

lemma locationStep_travelledKm_some (d : Location → Location → ℚ) (conn ok : Bool)
    (pos : Location) (s : DriverState) (lc : Location) (h : s.lastCoord = some lc) :
    (locationStep d conn ok pos s).1.travelledKm = s.travelledKm + d lc pos / 1000 := by
  simp [locationStep, saveLocationToDatabase_fst, h]

lemma locationStep_travelledKm_none (d : Location → Location → ℚ) (conn ok : Bool)
    (pos : Location) (s : DriverState) (h : s.lastCoord = none) :
    (locationStep d conn ok pos s).1.travelledKm = s.travelledKm := by
  simp [locationStep, saveLocationToDatabase_fst, h]

lemma locationStep_countP (d : Location → Location → ℚ) (conn ok : Bool)
    (pos : Location) (s : DriverState) :
    ((locationStep d conn ok pos s).2.countP isPersist) =
      if (s.locationUpdateCount + 1) % 5 = 0 then 1 else 0 := by
  rcases h : s.lastCoord with _ | lc <;>
    simp [locationStep, saveLocationToDatabase_countP, h]

lemma ingestAll_count (d : Location → Location → ℚ) (conn ok : Bool)
    (samples : List Location) : ∀ s : DriverState,
      (ingestAll d conn ok samples s).locationUpdateCount =
        s.locationUpdateCount + samples.length := by
  induction samples with
  | nil => intro s; simp [ingestAll]
  | cons p rest ih =>
    intro s
    rw [ingestAll, ih, locationStep_count]
    simp [List.length_cons]
    omega

lemma ingestAll_travelledKm_some (d : Location → Location → ℚ) (conn ok : Bool)
    (samples : List Location) : ∀ (s : DriverState) (lc : Location),
      s.lastCoord = some lc →
      (ingestAll d conn ok samples s).travelledKm =
        s.travelledKm + pathLength d (lc :: samples) / 1000 := by
  induction samples with
  | nil => intro s lc h; simp [ingestAll, pathLength]
  | cons p rest ih =>
    intro s lc h
    rw [ingestAll, ih (locationStep d conn ok p s).1 p (locationStep_lastCoord d conn ok p s),
        locationStep_travelledKm_some d conn ok p s lc h]
    rw [pathLength, add_div]
    ring

lemma ingestAll_travelledKm_none (d : Location → Location → ℚ) (conn ok : Bool)
    (samples : List Location) (s : DriverState) (h : s.lastCoord = none) :
    (ingestAll d conn ok samples s).travelledKm =
      s.travelledKm + pathLength d samples / 1000 := by
  rcases samples with _ | ⟨p, rest⟩
  · simp [ingestAll, pathLength]
  · rw [ingestAll, ingestAll_travelledKm_some d conn ok rest (locationStep d conn ok p s).1 p
      (locationStep_lastCoord d conn ok p s), locationStep_travelledKm_none d conn ok p s h]

lemma acceptRide_travelledKm (ctx : AcceptCtx) (rid? : Option String) (s : DriverState) :
    (acceptRide ctx rid? s).1.travelledKm = s.travelledKm := by
  rcases hm : strOr rid? (s.ride.map (fun r => r.rideId)) with _ | cr
  · simp [acceptRide, hm]
  · by_cases h1 : cr = ""
    · simp [acceptRide, hm, h1]
    · by_cases h2 : s.driverId = ""
      · simp [acceptRide, hm, h1, h2]
      · by_cases h3 : ctx.connected
        · rcases hack : ctx.ack with _ | resp
          · simp [acceptRide, hm, h1, h2, h3, hack]
          · rcases hloc : s.location with _ | l <;> rcases hrr : ctx.routeRes with _ | rc <;>
              simp [acceptRide, hm, h1, h2, h3, hack, hloc, hrr]
        · simp [acceptRide, hm, h1, h2, h3]

lemma confirmOTP_travelledKm (rr : Option (List Location)) (s : DriverState) :
    (confirmOTP rr s).1.travelledKm = s.travelledKm := by
  rcases hRide : s.ride with _ | r
  · simp [confirmOTP, hRide]
  · rcases hOtp : r.otp with _ | o
    · simp [confirmOTP, hRide, hOtp]
    · by_cases h1 : o = ""
      · simp [confirmOTP, hRide, hOtp, h1]
      · by_cases h2 : s.enteredOtp = o
        · rcases hrr : rr with _ | rc
          · simp [confirmOTP, hRide, hOtp, h1, h2, hrr]
          · by_cases h3 : 0 < rc.length <;>
              simp [confirmOTP, hRide, hOtp, h1, h2, hrr, h3]
        · simp [confirmOTP, hRide, hOtp, h1, h2]

/-- C7: starting from a reset accumulator and no previous sample, ingesting
samples S0..Sn leaves the accumulator at the sum of the consecutive pairwise
distances (converted to kilometres, the unit of the accumulator); zero or one
sample yields 0. -/
theorem travelled_distance_sum (d : Location → Location → ℚ) (conn ok : Bool)
    (samples : List Location) (s : DriverState)
    (h0 : s.travelledKm = 0) (h1 : s.lastCoord = none) :
    (ingestAll d conn ok samples s).travelledKm = pathLength d samples / 1000 ∧
    (samples.length ≤ 1 → (ingestAll d conn ok samples s).travelledKm = 0) := by
  have hmain := ingestAll_travelledKm_none d conn ok samples s h1
  rw [h0, zero_add] at hmain
  refine ⟨hmain, ?_⟩
  intro hlen
  rw [hmain]
  rcases samples with _ | ⟨a, _ | ⟨b, rest⟩⟩
  · simp [pathLength]
  · simp [pathLength]
  · simp only [List.length_cons] at hlen; omega

/-- Witness for C7 at a concrete distance function and three samples. -/
theorem travelled_distance_sum_witness :
    stateZero.travelledKm = 0 ∧ stateZero.lastCoord = none ∧
      (ingestAll dEx true true [locA, locB, locC] stateZero).travelledKm =
        pathLength dEx [locA, locB, locC] / 1000 :=
  ⟨rfl, rfl, (travelled_distance_sum dEx true true [locA, locB, locC] stateZero rfl rfl).1⟩

/-- C8: every position sample updates the current location unconditionally;
one ingestion increments the sample counter by one and produces exactly one
backend persistence write when the incremented counter is divisible by 5 and
none otherwise; ingesting a batch advances the counter by the batch size, so
exactly every 5th sample is persisted. -/
theorem persist_every_fifth (d : Location → Location → ℚ) (conn ok : Bool)
    (pos : Location) (s : DriverState) :
    (locationStep d conn ok pos s).1.location = some pos ∧
    ((locationStep d conn ok pos s).2.countP isPersist =
      if (s.locationUpdateCount + 1) % 5 = 0 then 1 else 0) ∧
    (locationStep d conn ok pos s).1.locationUpdateCount = s.locationUpdateCount + 1 ∧
    (∀ (samples : List Location) (s2 : DriverState),
      (ingestAll d conn ok samples s2).locationUpdateCount =
        s2.locationUpdateCount + samples.length) :=
  ⟨locationStep_location d conn ok pos s, locationStep_countP d conn ok pos s,
   locationStep_count d conn ok pos s, fun samples s2 => ingestAll_count d conn ok samples s2⟩

/-- C9: the distance accumulator gains the step distance on every sample with
a previous coordinate, for every state whatsoever (any RideStatus, ride held
or not); acceptRide and confirmOTP never change it; and the two
ride-completed emissions carry exactly the accumulator value at completion
time. -/
theorem travelled_accumulator_global (d : Location → Location → ℚ) (conn ok : Bool) :
    (∀ (pos lc : Location) (s : DriverState), s.lastCoord = some lc →
        (locationStep d conn ok pos s).1.travelledKm = s.travelledKm + d lc pos / 1000) ∧
    (∀ (ctx : AcceptCtx) (rid? : Option String) (s : DriverState),
        (acceptRide ctx rid? s).1.travelledKm = s.travelledKm) ∧
    (∀ (rr : Option (List Location)) (s : DriverState),
        (confirmOTP rr s).1.travelledKm = s.travelledKm) ∧
    (∀ (s : DriverState) (r : RideType), s.ride = some r →
        Effect.emitDriverCompletedRide r.rideId s.driverId
          (s.userData.bind (fun u => u.userId)) s.travelledKm ∈ (completeRide s).2 ∧
        Effect.emitCompleteRide r.rideId s.driverId s.travelledKm ∈ (completeRide s).2) := by
  refine ⟨fun pos lc s h => locationStep_travelledKm_some d conn ok pos s lc h,
    fun ctx rid? s => acceptRide_travelledKm ctx rid? s,
    fun rr s => confirmOTP_travelledKm rr s,
    fun s r hr => ?_⟩
  simp [completeRide, hr]

/-- Witness for C9 at a concrete state holding a previous sample and a ride. -/
theorem travelled_accumulator_global_witness :
    stateWithLast.lastCoord = some locA ∧
      (locationStep dEx true true locB stateWithLast).1.travelledKm =
        stateWithLast.travelledKm + dEx locA locB / 1000 ∧
      (confirmOTP none stateWithLast).1.travelledKm = stateWithLast.travelledKm ∧
      (acceptRide ⟨true, none, none⟩ none stateWithLast).1.travelledKm =
        stateWithLast.travelledKm ∧
      Effect.emitCompleteRide rideEx.rideId stateWithLast.driverId
        stateWithLast.travelledKm ∈ (completeRide stateWithLast).2 := by
  have h := travelled_accumulator_global dEx true true
  exact ⟨rfl, h.1 locB locA stateWithLast rfl, h.2.2.1 none stateWithLast,
    h.2.1 ⟨true, none, none⟩ none stateWithLast,
    (h.2.2.2 stateWithLast rideEx rfl).2⟩

/-- C1 counterexample: at a concrete held ride, `rejectRide` leaves the
travelled-distance accumulator at 2 (the claim demands 0), `completeRide`
leaves RideStatus at `completed` (the claim demands `idle`), and the
ride-already-accepted handler leaves the full route array nonempty (the
claim demands it cleared). -/
theorem exit_claim_counterexample :
    stateAccepted.ride = some rideEx ∧
    (rejectRide none stateAccepted).1.travelledKm = 2 ∧ (2 : ℚ) ≠ 0 ∧
    (completeRide stateAccepted).1.rideStatus = RideStatus.completed ∧
    RideStatus.completed ≠ RideStatus.idle ∧
    (handleRideAlreadyAccepted (some "R1") none stateAccepted).1.fullRouteCoords =
      [locA, locB] ∧
    ([locA, locB] : List Location) ≠ [] := by
  exact ⟨rfl, by decide, by norm_num, by decide, by decide, by decide, by decide⟩

/-- C1 amended: the exact post-state of each of the four ride-exit
operations on a held ride.  The rideCancelled handler clears everything and
returns to idle; rejectRide clears everything except the travelled-distance
accumulator and the nearest index; completeRide clears everything but leaves
RideStatus = completed, not idle; the rideAlreadyAccepted handler resets the
accumulator but leaves both route arrays and the nearest index untouched. -/
theorem exitPaths_poststate (s : DriverState) (r : RideType) (msg? : Option String)
    (hr : s.ride = some r) (hid : r.rideId ≠ "") :
    ((rejectRide none s).1.rideStatus = RideStatus.idle ∧
     (rejectRide none s).1.ride = none ∧
     (rejectRide none s).1.userData = none ∧
     (rejectRide none s).1.userLocation = none ∧
     (rejectRide none s).1.lastCoord = none ∧
     (rejectRide none s).1.fullRouteCoords = [] ∧
     (rejectRide none s).1.visibleRouteCoords = [] ∧
     (rejectRide none s).1.travelledKm = s.travelledKm ∧
     (rejectRide none s).1.nearestPointIndex = s.nearestPointIndex) ∧
    ((completeRide s).1.rideStatus = RideStatus.completed ∧
     (completeRide s).1.ride = none ∧
     (completeRide s).1.userData = none ∧
     (completeRide s).1.userLocation = none ∧
     (completeRide s).1.lastCoord = none ∧
     (completeRide s).1.travelledKm = 0 ∧
     (completeRide s).1.fullRouteCoords = [] ∧
     (completeRide s).1.visibleRouteCoords = [] ∧
     (completeRide s).1.nearestPointIndex = 0) ∧
    ((handleRideCancelled (some r.rideId) s).1.rideStatus = RideStatus.idle ∧
     (handleRideCancelled (some r.rideId) s).1.ride = none ∧
     (handleRideCancelled (some r.rideId) s).1.userData = none ∧
     (handleRideCancelled (some r.rideId) s).1.userLocation = none ∧
     (handleRideCancelled (some r.rideId) s).1.lastCoord = none ∧
     (handleRideCancelled (some r.rideId) s).1.travelledKm = 0 ∧
     (handleRideCancelled (some r.rideId) s).1.fullRouteCoords = [] ∧
     (handleRideCancelled (some r.rideId) s).1.visibleRouteCoords = [] ∧
     (handleRideCancelled (some r.rideId) s).1.nearestPointIndex = 0) ∧
    ((handleRideAlreadyAccepted (some r.rideId) msg? s).1.rideStatus = RideStatus.idle ∧
     (handleRideAlreadyAccepted (some r.rideId) msg? s).1.ride = none ∧
     (handleRideAlreadyAccepted (some r.rideId) msg? s).1.userData = none ∧
     (handleRideAlreadyAccepted (some r.rideId) msg? s).1.userLocation = none ∧
     (handleRideAlreadyAccepted (some r.rideId) msg? s).1.travelledKm = 0 ∧
     (handleRideAlreadyAccepted (some r.rideId) msg? s).1.lastCoord = none ∧
     (handleRideAlreadyAccepted (some r.rideId) msg? s).1.fullRouteCoords =
       s.fullRouteCoords ∧
     (handleRideAlreadyAccepted (some r.rideId) msg? s).1.visibleRouteCoords =
       s.visibleRouteCoords ∧
     (handleRideAlreadyAccepted (some r.rideId) msg? s).1.nearestPointIndex =
       s.nearestPointIndex) := by
  refine ⟨?_, ?_, ?_, ?_⟩
  · simp [rejectRide, strOr, hr, hid]
  · simp [completeRide, hr]
  · simp [handleRideCancelled, hr]
  · simp [handleRideAlreadyAccepted, hr]

/-- Witness for the amended C1 at a concrete held ride. -/
theorem exitPaths_poststate_witness :
    stateAccepted.ride = some rideEx ∧ rideEx.rideId ≠ "" ∧
    (rejectRide none stateAccepted).1.rideStatus = RideStatus.idle ∧
    (handleRideCancelled (some rideEx.rideId) stateAccepted).1.rideStatus =
      RideStatus.idle := by
  have h := exitPaths_poststate stateAccepted rideEx none rfl (by decide)
  exact ⟨rfl, by decide, h.1.1, h.2.2.1.1⟩

/-- C2 counterexample: a ride created without an otp field holds the default
"0000"; entering "0000" then starts the ride instead of being rejected with
the not-received signal. -/
theorem default_otp_counterexample :
    stateAccepted.ride = some rideEx ∧ rideEx.otp = some "0000" ∧
    stateAccepted.enteredOtp = "0000" ∧
    stateAccepted.rideStatus = RideStatus.accepted ∧
    (confirmOTP none stateAccepted).1.rideStatus = RideStatus.started ∧
    (Effect.alert "Error" "OTP not yet received. Please wait...") ∉
      (confirmOTP none stateAccepted).2 := by
  exact ⟨rfl, rfl, rfl, rfl, by decide, by decide⟩

/-- C2 amended: the not-received rejection fires exactly when the otp field
is absent or empty (JS-falsy), not when it is at the "0000" default; in that
case the state is unchanged and the sole signal is the not-received alert,
which differs from the wrong-code alert. -/
theorem otp_not_received_guard (rr : Option (List Location)) (s : DriverState)
    (r : RideType) (hr : s.ride = some r) (ho : r.otp = none ∨ r.otp = some "") :
    (confirmOTP rr s).1 = s ∧
    (confirmOTP rr s).2 = [Effect.alert "Error" "OTP not yet received. Please wait..."] ∧
    (Effect.alert "Error" "OTP not yet received. Please wait..." ≠
      Effect.alert "Invalid OTP" "Please check the OTP and try again.") := by
  rcases ho with ho | ho
  · exact ⟨by simp [confirmOTP, hr, ho], by simp [confirmOTP, hr, ho], by decide⟩
  · exact ⟨by simp [confirmOTP, hr, ho], by simp [confirmOTP, hr, ho], by decide⟩

/-- Witness for the amended C2 at a ride whose otp field is absent. -/
theorem otp_not_received_guard_witness :
    stateNoOtp.ride = some { rideEx with otp := none } ∧
    (confirmOTP none stateNoOtp).1 = stateNoOtp ∧
    (confirmOTP none stateNoOtp).2 =
      [Effect.alert "Error" "OTP not yet received. Please wait..."] := by
  have h := otp_not_received_guard none stateNoOtp { rideEx with otp := none }
    rfl (Or.inl rfl)
  exact ⟨rfl, h.1, h.2.1⟩

/-- C3: with a held ride whose otp is a real code (non-default, nonempty),
confirmOTP moves accepted → started exactly when the entered code equals the
otp; a match emits `driverStartedRide`, a mismatch leaves the state unchanged
and produces only the wrong-code alert. -/
theorem confirmOTP_iff_spec (rr : Option (List Location)) (s : DriverState)
    (r : RideType) (o : String) (hr : s.ride = some r) (ho : r.otp = some o)
    (hne : o ≠ "") (hnd : o ≠ "0000") (hst : s.rideStatus = RideStatus.accepted) :
    ((confirmOTP rr s).1.rideStatus = RideStatus.started ↔ s.enteredOtp = o) ∧
    (s.enteredOtp = o →
      Effect.emitDriverStartedRide r.rideId s.driverId
        (s.userData.bind (fun u => u.userId)) s.location ∈ (confirmOTP rr s).2) ∧
    (s.enteredOtp ≠ o →
      (confirmOTP rr s).1 = s ∧
      (confirmOTP rr s).2 =
        [Effect.alert "Invalid OTP" "Please check the OTP and try again."]) := by
  by_cases h2 : s.enteredOtp = o
  · refine ⟨⟨fun _ => h2, fun _ => ?_⟩, fun _ => ?_, fun hc => absurd h2 hc⟩
    · rcases hrr : rr with _ | rc
      · simp [confirmOTP, hr, ho, hne, h2, hrr]
      · by_cases h3 : 0 < rc.length <;> simp [confirmOTP, hr, ho, hne, h2, hrr, h3]
    · rcases hrr : rr with _ | rc
      · simp [confirmOTP, hr, ho, hne, h2, hrr]
      · by_cases h3 : 0 < rc.length <;> simp [confirmOTP, hr, ho, hne, h2, hrr, h3]
  · have hfix : (confirmOTP rr s).1 = s := by simp [confirmOTP, hr, ho, hne, h2]
    refine ⟨⟨fun hstart => ?_, fun hc => absurd hc h2⟩,
      fun hc => absurd hc h2, fun _ => ⟨hfix, ?_⟩⟩
    · rw [hfix, hst] at hstart
      simp at hstart
    · simp [confirmOTP, hr, ho, hne, h2]

/-- Witness for C3 at a ride holding the real otp "4321" and a wrong entered
code. -/
theorem confirmOTP_iff_spec_witness :
    stateRealOtp.ride = some rideEx2 ∧ rideEx2.otp = some "4321" ∧
    ((confirmOTP none stateRealOtp).1.rideStatus = RideStatus.started ↔
      stateRealOtp.enteredOtp = "4321") ∧
    (confirmOTP none stateRealOtp).1 = stateRealOtp := by
  have h := confirmOTP_iff_spec none stateRealOtp rideEx2 "4321" rfl rfl
    (by decide) (by decide) rfl
  exact ⟨rfl, rfl, h.1, (h.2.2 (by decide)).1⟩

/-- C4: the three ride-scoped inbound handlers are no-ops (state and effects)
when no ride is held or the event rideId does not match the held ride; a
matching rideCancelled while started resets the status to idle and emits
exactly one `driverRideCancelled`. -/
theorem ride_scoped_guard :
    (∀ (eid msg? otp? : Option String) (s : DriverState),
      (∀ r, s.ride = some r → eid ≠ some r.rideId) →
      handleRideCancelled eid s = (s, []) ∧
      handleRideAlreadyAccepted eid msg? s = (s, []) ∧
      handleRideOTP eid otp? s = (s, [])) ∧
    (∀ (eid : Option String) (s : DriverState) (r : RideType),
      s.ride = some r → eid = some r.rideId → s.rideStatus = RideStatus.started →
      (handleRideCancelled eid s).1.rideStatus = RideStatus.idle ∧
      (handleRideCancelled eid s).2.countP isDriverRideCancelled = 1) := by
  constructor
  · intro eid msg? otp? s h
    rcases hr : s.ride with _ | r
    · exact ⟨by simp [handleRideCancelled, hr],
        by simp [handleRideAlreadyAccepted, hr], by simp [handleRideOTP, hr]⟩
    · have hne := h r hr
      exact ⟨by simp [handleRideCancelled, hr, hne],
        by simp [handleRideAlreadyAccepted, hr, hne],
        by simp [handleRideOTP, hr, hne]⟩
  · intro eid s r hr heid hst
    constructor
    · simp [handleRideCancelled, hr, heid]
    · simp [handleRideCancelled, hr, heid, isDriverRideCancelled, List.countP_cons]

/-- Witness for C4: a non-matching cancel is a no-op and a matching cancel
while started goes to idle with one driverRideCancelled emission. -/
theorem ride_scoped_guard_witness :
    handleRideCancelled (some "OTHER") stateStarted = (stateStarted, []) ∧
    (handleRideCancelled (some "R1") stateStarted).1.rideStatus = RideStatus.idle ∧
    (handleRideCancelled (some "R1") stateStarted).2.countP isDriverRideCancelled = 1 := by
  have hmis : ∀ r, stateStarted.ride = some r →
      (some "OTHER" : Option String) ≠ some r.rideId := by
    intro r hr
    have h2 : some rideEx = some r := hr
    have h3 : rideEx = r := by injection h2
    subst h3
    decide
  have h1 := ride_scoped_guard.1 (some "OTHER") none none stateStarted hmis
  have h2 := ride_scoped_guard.2 (some "R1") stateStarted rideEx rfl rfl rfl
  exact ⟨h1.1, h2.1, h2.2⟩

/-- C10: a ride-request payload without a rideId is ignored entirely (no
state change, nothing presented), while a payload carrying only a rideId has
every other field defensively defaulted, creates the ride, moves the status
to onTheWay and presents the offer. -/
theorem missing_rideId_ignored :
    (∀ (pl : RidePayload) (s : DriverState), pl.rideId = none →
      handleRideRequest pl s = (s, [])) ∧
    (∀ (rid : String) (s : DriverState), rid ≠ "" →
      (handleRideRequest (payloadOnlyId rid) s).1.ride = some (defaultRideOf rid) ∧
      (handleRideRequest (payloadOnlyId rid) s).1.rideStatus = RideStatus.onTheWay ∧
      (handleRideRequest (payloadOnlyId rid) s).2 ≠ []) := by
  constructor
  · intro pl s h
    simp [handleRideRequest, h]
  · intro rid s h
    refine ⟨?_, ?_, ?_⟩ <;>
      simp [handleRideRequest, payloadOnlyId, defaultRideOf, mkPlace, jsStrOr, h]

/-- Witness for C10: the empty payload is dropped, the id-only payload
creates the fully defaulted ride. -/
theorem missing_rideId_ignored_witness :
    handleRideRequest emptyPayload stateZero = (stateZero, []) ∧
    ("R9" : String) ≠ "" ∧
    (handleRideRequest (payloadOnlyId "R9") stateZero).1.ride =
      some (defaultRideOf "R9") := by
  have h1 := missing_rideId_ignored.1 emptyPayload stateZero rfl
  have h2 := missing_rideId_ignored.2 "R9" stateZero (by decide)
  exact ⟨h1, by decide, h2.1⟩

end DriverApp
